import Mathlib

/-!
Shallow embedding of the AlphaSignal repository (src/etl.py and src/app.py).

The two Python scripts orchestrate external providers: a Supabase news table
(`market_news`), a DuckDuckGo web search, a sentence-embedding model, a Groq
streaming chat completion, and a yfinance quote feed.  All providers are out of
scope for this repository, so each one enters the embedding as an explicit
oracle argument: the embedding model is a function `String → List Int`, a
search call is an `Except Unit` value (error = the Python call raised), the
store insert backend is the append to a row list together with a success
oracle `insOk` (false = the insert call raised), and the streaming completion
is a list of token chunks plus a failure flag.  Uncaught Python exceptions are
modelled as `Except.error` results, respectively as `failed := true` on a chat
turn.  Wall-clock time (`datetime.utcnow()`) is a `now : Nat` argument.
-/

namespace AlphaSignal

/-- One result returned by the DuckDuckGo text search (`ddgs.text`): the code
reads only the `title` and `body` fields of each result dictionary. -/
structure Article where
  title : String
  body : String
deriving Repr, DecidableEq

/-- One row of the `market_news` table, exactly the payload dictionary built in
`etl.py` (lines 61-67) and `app.py` (lines 162-168). -/
structure NewsRow where
  ticker : String
  headline : String
  content : String
  published_at : Nat
  embedding : List Int
deriving Repr, DecidableEq

/-- The news table: inserts append rows, nothing in the code updates or
deletes. -/
abbrev Store := List NewsRow

/-- One row of the `match_documents` RPC response, as read by `app.py`
(fields `headline`, `content`, `published_at`). -/
structure NewsMatch where
  headline : String
  content : String
  published_at : String
deriving Repr, DecidableEq

/-- One chat message in `st.session_state.messages`. -/
structure Msg where
  role : String
  content : String
deriving Repr, DecidableEq

/-- Oracle for the Groq streaming completion: the non-empty delta chunks that
arrive, and whether the call or the stream raises. -/
structure CompStream where
  chunks : List String
  fails : Bool
deriving Repr, DecidableEq

/-- Observable provider events of one chat turn, recorded when the
corresponding call in `app.py` returns (searches), respectively is entered
(backfill, completion). -/
inductive Ev where
  | search (n : Nat)
  | backfill (ticker : String)
  | completionCall (sys : String)
deriving Repr, DecidableEq

/-- Outcome of one chat turn: final session message list, final store, the
provider events that happened, and whether an uncaught exception ended the
turn. -/
structure TurnResult where
  messages : List Msg
  store : Store
  events : List Ev
  failed : Bool
deriving Repr, DecidableEq

/-- `etl.py` line 81: the fixed watch-list of the batch job. -/
def watchlist : List String := ["NVDA", "TSLA", "AAPL", "AMD", "MSFT"]

/-- The web-search query string used by both scripts. -/
def ddg_query (ticker : String) : String := ticker ++ " stock news"

/-- Python `str.upper()` on the strings this code passes it (ASCII tickers):
upper-case every character. -/
def py_upper (s : String) : String := String.mk (s.toList.map Char.toUpper)

/-- The row payload built for one article in `fetch_and_store_data`
(`etl.py` lines 50-67): ticker is used as passed, `published_at` is the
wall clock at insertion. -/
def etl_row (encode : String → List Int) (now : Nat) (ticker : String)
    (a : Article) : NewsRow :=
  { ticker := ticker
    headline := a.title
    content := a.body
    published_at := now
    embedding := encode (a.title ++ ". " ++ a.body) }

/-- The row payload built for one article in `perform_live_research`
(`app.py` lines 160-168): ticker is upper-cased, `published_at` is the wall
clock at insertion. -/
def research_row (encode : String → List Int) (now : Nat) (ticker : String)
    (a : Article) : NewsRow :=
  { ticker := py_upper ticker
    headline := a.title
    content := a.body
    published_at := now
    embedding := encode (a.title ++ ". " ++ a.body) }

/-- Insert loop of `fetch_and_store_data` (`etl.py` lines 49-74): each insert
is wrapped in try/except, a failing insert is logged and skipped, the loop
continues; returns the final store and the saved-article count. -/
def fetch_and_store_loop (encode : String → List Int) (insOk : NewsRow → Bool)
    (now : Nat) (ticker : String) : List Article → Store → Store × Nat
  | [], s => (s, 0)
  | a :: rest, s =>
    let row := etl_row encode now ticker a
    if insOk row then
      let p := fetch_and_store_loop encode insOk now ticker rest (s ++ [row])
      (p.1, p.2 + 1)
    else
      fetch_and_store_loop encode insOk now ticker rest s

/-- `fetch_and_store_data` (`etl.py` lines 24-76), news part: the DuckDuckGo
call (lines 42-46) is NOT inside a try/except, so a search-provider failure
propagates out of the function; the insert loop catches per-item failures. -/
def fetch_and_store_data (encode : String → List Int) (insOk : NewsRow → Bool)
    (ddg : Except Unit (List Article)) (now : Nat) (ticker : String)
    (store : Store) : Except Unit (Store × Nat) :=
  match ddg with
  | Except.error e => Except.error e
  | Except.ok results =>
      Except.ok (fetch_and_store_loop encode insOk now ticker results store)

/-- Insert loop of `perform_live_research` (`app.py` lines 159-169): the
inserts are NOT wrapped in try/except, so the first failing insert raises,
leaving the rows inserted before it in the store (the `Except.error` payload
is the store at the moment of the exception). -/
def research_insert_loop (encode : String → List Int) (insOk : NewsRow → Bool)
    (now : Nat) (ticker : String) : List Article → Store → Except Store Store
  | [], s => Except.ok s
  | a :: rest, s =>
    let row := research_row encode now ticker a
    if insOk row then
      research_insert_loop encode insOk now ticker rest (s ++ [row])
    else
      Except.error s

/-- `perform_live_research` (`app.py` lines 145-171): the web search is inside
try/except and a search failure returns early with the store unchanged
(`Except.ok store`); the subsequent insert loop is unguarded. -/
def perform_live_research (encode : String → List Int) (insOk : NewsRow → Bool)
    (ddg : Except Unit (List Article)) (now : Nat) (ticker : String)
    (store : Store) : Except Store Store :=
  match ddg with
  | Except.error _ => Except.ok store
  | Except.ok results => research_insert_loop encode insOk now ticker results store

/-- `app.py` line 196: the ticker used for backfill is the Active Ticker text
input, upper-cased.  The free-text question is not consulted. -/
def target_ticker (selected_ticker : String) : String :=
  py_upper selected_ticker

/-- The per-match fragment of the context block (`app.py` line 208). -/
def context_fragment (m : NewsMatch) : String :=
  "Headline: " ++ m.headline ++ "\nBody: " ++ m.content

/-- Context construction (`app.py` lines 205-208): empty string when there are
no matches, otherwise the fragments joined by a blank line. -/
def context_text (ms : List NewsMatch) : String :=
  if ms.isEmpty then ""
  else String.intercalate "\n\n" (ms.map context_fragment)

/-- The system prompt sent to the completion provider (`app.py` line 216),
with the context block interpolated at the end. -/
def system_prompt (ctx : String) : String :=
  "You are a helpful financial analyst AI. Answer the user's question clearly and naturally using the provided news context. If the context doesn't have the answer, say so politely. Do not act like a command-line terminal. Context: " ++ ctx

/-- The user message appended at the start of a turn (`app.py` line 176). -/
def user_message (prompt : String) : Msg :=
  { role := "user", content := prompt }

/-- The assistant message appended after a successful stream
(`app.py` line 243). -/
def assistant_message (response : String) : Msg :=
  { role := "assistant", content := response }

/-- Retrieval part of the chat handler (`app.py` lines 185-203): first vector
search; on zero matches, backfill for the Active Ticker and exactly one retry
search.  Result: the events so far, the store after any backfill, and `some`
final match list, or `none` when an uncaught provider exception ended the
turn (first search raised, backfill insert raised, or retry search raised). -/
def retrieve_phase (encode : String → List Int) (insOk : NewsRow → Bool)
    (search1 : Except Unit (List NewsMatch)) (ddg : Except Unit (List Article))
    (search2 : Except Unit (List NewsMatch)) (now : Nat)
    (selected_ticker : String) (store : Store) :
    List Ev × Store × Option (List NewsMatch) :=
  match search1 with
  | Except.error _ => ([], store, none)
  | Except.ok ms1 =>
    if ms1.isEmpty then
      let t := target_ticker selected_ticker
      match perform_live_research encode insOk ddg now t store with
      | Except.error s2 => ([Ev.search ms1.length, Ev.backfill t], s2, none)
      | Except.ok s2 =>
        match search2 with
        | Except.error _ => ([Ev.search ms1.length, Ev.backfill t], s2, none)
        | Except.ok ms2 =>
            ([Ev.search ms1.length, Ev.backfill t, Ev.search ms2.length], s2, some ms2)
    else ([Ev.search ms1.length], store, some ms1)

/-- Synthesis part of the chat handler (`app.py` lines 205-243): build the
context, invoke the streaming completion, and append the accumulated response
to the session history only when the stream finished without raising. -/
def synth_phase (comp : CompStream) (ms : List NewsMatch) (msgs1 : List Msg)
    (s2 : Store) (evs : List Ev) : TurnResult :=
  let evs2 := evs ++ [Ev.completionCall (system_prompt (context_text ms))]
  if comp.fails then
    { messages := msgs1, store := s2, events := evs2, failed := true }
  else
    { messages := msgs1 ++ [assistant_message (String.join comp.chunks)]
      store := s2
      events := evs2
      failed := false }

/-- One full chat turn (`app.py` lines 174-243): append the user message, run
retrieval (with possible backfill and retry), then synthesis.  Any uncaught
provider exception leaves `failed := true` and no assistant message. -/
def chat_turn (encode : String → List Int) (insOk : NewsRow → Bool)
    (search1 : Except Unit (List NewsMatch)) (ddg : Except Unit (List Article))
    (search2 : Except Unit (List NewsMatch)) (comp : CompStream) (now : Nat)
    (selected_ticker prompt : String) (msgs : List Msg) (store : Store) :
    TurnResult :=
  let msgs1 := msgs ++ [user_message prompt]
  match retrieve_phase encode insOk search1 ddg search2 now selected_ticker store with
  | (evs, s2, none) => { messages := msgs1, store := s2, events := evs, failed := true }
  | (evs, s2, some ms) => synth_phase comp ms msgs1 s2 evs

/-- `etl.py` lines 11-15: both Supabase values are read from the environment
(`none` = unset) and an unset or empty value aborts the job with a
`ValueError` before any client is created. -/
def etl_startup (url key : Option String) : Except String (String × String) :=
  match url, key with
  | some u, some k =>
      if u.isEmpty || k.isEmpty then
        Except.error "Supabase URL or Key is missing. Check your environment variables."
      else Except.ok (u, k)
  | _, _ =>
      Except.error "Supabase URL or Key is missing. Check your environment variables."

/-- The three `st.secrets` values read by `app.py` (`none` = the secret is
absent, in which case the Python lookup raises `KeyError`). -/
structure Secrets where
  supabase_url : Option String
  supabase_key : Option String
  groq_api_key : Option String
deriving Repr, DecidableEq

/-- `app.py` lines 48-53: the secret lookups and client constructions are
wrapped in a bare try/except; any missing secret yields the error banner and
`st.stop()`. -/
def app_startup (s : Secrets) : Except String (String × String × String) :=
  match s.supabase_url, s.supabase_key, s.groq_api_key with
  | some u, some k, some g => Except.ok (u, k, g)
  | _, _, _ => Except.error "Secrets missing! Please update Streamlit Secrets."

/-- The whole app script: everything after the credentials block runs only
when startup succeeded (`st.stop()` halts the script otherwise). -/
def app_run {α : Type} (s : Secrets) (rest : String × String × String → α) :
    Except String α :=
  match app_startup s with
  | Except.error m => Except.error m
  | Except.ok c => Except.ok (rest c)

/-- The whole etl script: the code after the check runs only when both values
are present (the `ValueError` aborts the process otherwise). -/
def etl_run {α : Type} (url key : Option String) (rest : String × String → α) :
    Except String α :=
  match etl_startup url key with
  | Except.error m => Except.error m
  | Except.ok c => Except.ok (rest c)

/-- The `fast_info` fields read by `show_market_data` (`app.py` lines 76-78),
prices in cents so that the arithmetic stays integral. -/
structure FastInfo where
  last_price : Int
  previous_close : Int
deriving Repr, DecidableEq

/-- Rendered state of the price metric column of the widget. -/
inductive PriceView where
  | metric (label : String) (price change : Int)
  | warning (msg : String)
deriving Repr, DecidableEq

/-- Rendered state of the chart column of the widget. -/
inductive ChartView where
  | chart (points : Nat)
  | unavailable (msg : String)
deriving Repr, DecidableEq

/-- Price column of `show_market_data` (`app.py` lines 71-89): the quote fetch
and the change arithmetic sit inside try/except, so a raising fetch — and the
`ZeroDivisionError` when the previous close is zero — degrade to the warning
text instead of propagating. -/
def show_price_metric (ticker : String) (fi : Except Unit FastInfo) : PriceView :=
  match fi with
  | Except.error _ => PriceView.warning "Market data unavailable"
  | Except.ok info =>
      if info.previous_close = 0 then PriceView.warning "Market data unavailable"
      else
        PriceView.metric (py_upper ticker ++ " Live Price") info.last_price
          (info.last_price - info.previous_close)

/-- Chart column of `show_market_data` (`app.py` lines 91-113): the history
fetch and plot sit inside try/except and degrade to a placeholder text. -/
def show_chart (hist : Except Unit (List Int)) : ChartView :=
  match hist with
  | Except.error _ => ChartView.unavailable "Chart unavailable"
  | Except.ok h => ChartView.chart h.length

/-- `show_market_data` (`app.py` lines 64-113): returns `none` only for the
empty ticker (the early `return`), otherwise always a rendered pair — the
function has no failure outcome. -/
def show_market_data (ticker : String) (fi : Except Unit FastInfo)
    (hist : Except Unit (List Int)) : Option (PriceView × ChartView) :=
  if ticker.isEmpty then none
  else some (show_price_metric ticker fi, show_chart hist)

/-- Modelled from the spec (section 4.4): the free-text ticker heuristic the
spec attributes to the query pipeline — scan whitespace-delimited tokens,
strip trailing punctuation, accept the first all-upper-case token of at most
5 characters.  No such code exists in `src/app.py`; this definition follows
the spec text and is used only to compare the spec against the code. -/
def strip_trailing_punct (t : String) : String :=
  String.mk (((t.toList.reverse).dropWhile (fun c => !c.isAlphanum)).reverse)

/-- Modelled from the spec (section 4.4): which stripped token counts as a
ticker — non-empty, at most 5 characters, all upper-case. -/
def is_ticker_token (t : String) : Bool :=
  !t.isEmpty && t.length ≤ 5 && t.toList.all (fun c => c.isUpper)

/-- Modelled from the spec (section 4.4): whitespace tokenization of the
question, dropping empty tokens, as Python `str.split()` does. -/
def split_ws_aux : List Char → List Char → List String
  | [], acc => if acc.isEmpty then [] else [String.mk acc.reverse]
  | c :: rest, acc =>
      if c.isWhitespace then
        if acc.isEmpty then split_ws_aux rest []
        else String.mk acc.reverse :: split_ws_aux rest []
      else split_ws_aux rest (c :: acc)

/-- Modelled from the spec (section 4.4): whitespace-delimited tokens of a
string. -/
def split_ws (s : String) : List String := split_ws_aux s.toList []

/-- Modelled from the spec (section 4.4): the full heuristic — first accepted
token of the whitespace-split question, after stripping trailing
punctuation. -/
def spec_extract_ticker (question : String) : Option String :=
  ((split_ws question).map strip_trailing_punct).find? is_ticker_token

/-- The store carried by a backfill insert-loop outcome: the committed rows,
on the error side the rows committed before the exception. -/
def storeOf (r : Except Store Store) : Store :=
  match r with
  | Except.ok s => s
  | Except.error s => s

/-- Whether an event is a vector-search call that returned. -/
def isSearchEv : Ev → Bool
  | Ev.search _ => true
  | _ => false

/-- Whether an event is a backfill invocation. -/
def isBackfillEv : Ev → Bool
  | Ev.backfill _ => true
  | _ => false

/-- Number of completed vector searches in a turn's event list. -/
def searchCount (evs : List Ev) : Nat := (evs.filter isSearchEv).length

/-- Number of backfill invocations in a turn's event list. -/
def backfillCount (evs : List Ev) : Nat := (evs.filter isBackfillEv).length

/-- The in-order concatenation of per-match fragments separated by blank
lines; reference shape for the context block. -/
def join_frags : List NewsMatch → String
  | [] => ""
  | [m] => context_fragment m
  | m :: m2 :: rest => context_fragment m ++ "\n\n" ++ join_frags (m2 :: rest)

theorem intercalate_go_append (s : String) : ∀ (t : List String) (p a : String),
    String.intercalate.go (p ++ a) s t = p ++ String.intercalate.go a s t := by
  intro t
  induction t with
  | nil => intro p a; simp [String.intercalate.go]
  | cons b t ih =>
    intro p a
    show String.intercalate.go (p ++ a ++ s ++ b) s t
        = p ++ String.intercalate.go (a ++ s ++ b) s t
    rw [String.append_assoc, String.append_assoc, ← String.append_assoc a s b, ih]

theorem intercalate_cons_cons (s a b : String) (t : List String) :
    String.intercalate s (a :: b :: t) = a ++ s ++ String.intercalate s (b :: t) := by
  show String.intercalate.go (a ++ s ++ b) s t = a ++ s ++ String.intercalate.go b s t
  rw [intercalate_go_append]

theorem intercalate_singleton (s a : String) : String.intercalate s [a] = a := by
  simp [String.intercalate, String.intercalate.go]

theorem context_text_eq_join_frags : ∀ ms : List NewsMatch,
    context_text ms = join_frags ms := by
  intro ms
  induction ms with
  | nil => rfl
  | cons m rest ih =>
    cases rest with
    | nil => simp [context_text, join_frags, intercalate_singleton]
    | cons m2 rest2 =>
      simp only [context_text, join_frags, List.isEmpty_cons, List.map_cons,
        if_neg Bool.false_ne_true, intercalate_cons_cons] at ih ⊢
      rw [ih]

theorem fetch_and_store_loop_eq (encode : String → List Int)
    (insOk : NewsRow → Bool) (now : Nat) (tk : String) :
    ∀ (articles : List Article) (store : Store),
    fetch_and_store_loop encode insOk now tk articles store
      = (store ++ (articles.filter
            (fun a => insOk (etl_row encode now tk a))).map (etl_row encode now tk),
         ((articles.filter (fun a => insOk (etl_row encode now tk a))).length)) := by
  intro articles
  induction articles with
  | nil => intro s; simp [fetch_and_store_loop]
  | cons a rest ih =>
    intro s
    cases h : insOk (etl_row encode now tk a) with
    | true => simp [fetch_and_store_loop, h, ih, List.filter_cons]
    | false => simp [fetch_and_store_loop, h, ih, List.filter_cons]

theorem research_insert_loop_spec (encode : String → List Int)
    (insOk : NewsRow → Bool) (now : Nat) (tk : String) :
    ∀ (articles : List Article) (store : Store), ∃ tail,
      storeOf (research_insert_loop encode insOk now tk articles store) = store ++ tail
      ∧ ∀ r ∈ tail, r.ticker = py_upper tk ∧ r.published_at = now := by
  intro articles
  induction articles with
  | nil => intro s; exact ⟨[], by simp [research_insert_loop, storeOf], by simp⟩
  | cons a rest ih =>
    intro s
    cases h : insOk (research_row encode now tk a) with
    | true =>
      obtain ⟨tail, heq, hall⟩ := ih (s ++ [research_row encode now tk a])
      refine ⟨research_row encode now tk a :: tail, ?_, ?_⟩
      · simp [research_insert_loop, h, heq]
      · intro r hr
        rcases List.mem_cons.mp hr with h1 | h1
        · subst h1; exact ⟨rfl, rfl⟩
        · exact hall r h1
    | false =>
      exact ⟨[], by simp [research_insert_loop, h, storeOf], by simp⟩

theorem perform_live_research_search_error (encode : String → List Int)
    (insOk : NewsRow → Bool) (now : Nat) (tk : String) (store : Store) :
    perform_live_research encode insOk (Except.error ()) now tk store
      = Except.ok store := rfl

theorem perform_live_research_spec (encode : String → List Int)
    (insOk : NewsRow → Bool) (ddg : Except Unit (List Article)) (now : Nat)
    (tk : String) (store : Store) : ∃ tail,
      storeOf (perform_live_research encode insOk ddg now tk store) = store ++ tail
      ∧ ∀ r ∈ tail, r.ticker = py_upper tk ∧ r.published_at = now := by
  cases ddg with
  | error e => exact ⟨[], by simp [perform_live_research, storeOf], by simp⟩
  | ok results => exact research_insert_loop_spec encode insOk now tk results store

theorem retrieve_phase_first_error {encode : String → List Int}
    {insOk : NewsRow → Bool} {ddg : Except Unit (List Article)}
    {search2 : Except Unit (List NewsMatch)} {now : Nat} {sel : String}
    {store : Store} {e : Unit} :
    retrieve_phase encode insOk (Except.error e) ddg search2 now sel store
      = ([], store, none) := rfl

theorem retrieve_phase_hit {encode : String → List Int} {insOk : NewsRow → Bool}
    {ddg : Except Unit (List Article)} {search2 : Except Unit (List NewsMatch)}
    {now : Nat} {sel : String} {store : Store} {m : NewsMatch}
    {ms : List NewsMatch} :
    retrieve_phase encode insOk (Except.ok (m :: ms)) ddg search2 now sel store
      = ([Ev.search (m :: ms).length], store, some (m :: ms)) := rfl

theorem retrieve_phase_backfill_error {encode : String → List Int}
    {insOk : NewsRow → Bool} {ddg : Except Unit (List Article)}
    {search2 : Except Unit (List NewsMatch)} {now : Nat} {sel : String}
    {store s2 : Store}
    (hb : perform_live_research encode insOk ddg now (target_ticker sel) store
        = Except.error s2) :
    retrieve_phase encode insOk (Except.ok []) ddg search2 now sel store
      = ([Ev.search 0, Ev.backfill (target_ticker sel)], s2, none) := by
  simp [retrieve_phase, hb]

theorem retrieve_phase_retry_error {encode : String → List Int}
    {insOk : NewsRow → Bool} {ddg : Except Unit (List Article)} {now : Nat}
    {sel : String} {store s2 : Store} {e : Unit}
    (hb : perform_live_research encode insOk ddg now (target_ticker sel) store
        = Except.ok s2) :
    retrieve_phase encode insOk (Except.ok []) ddg (Except.error e) now sel store
      = ([Ev.search 0, Ev.backfill (target_ticker sel)], s2, none) := by
  simp [retrieve_phase, hb]

theorem retrieve_phase_retry_ok {encode : String → List Int}
    {insOk : NewsRow → Bool} {ddg : Except Unit (List Article)} {now : Nat}
    {sel : String} {store s2 : Store} {ms2 : List NewsMatch}
    (hb : perform_live_research encode insOk ddg now (target_ticker sel) store
        = Except.ok s2) :
    retrieve_phase encode insOk (Except.ok []) ddg (Except.ok ms2) now sel store
      = ([Ev.search 0, Ev.backfill (target_ticker sel), Ev.search ms2.length],
         s2, some ms2) := by
  simp [retrieve_phase, hb]

theorem chat_turn_retrieve_failed {encode : String → List Int}
    {insOk : NewsRow → Bool} {search1 : Except Unit (List NewsMatch)}
    {ddg : Except Unit (List Article)} {search2 : Except Unit (List NewsMatch)}
    {comp : CompStream} {now : Nat} {sel p : String} {msgs : List Msg}
    {store s2 : Store} {evs : List Ev}
    (h : retrieve_phase encode insOk search1 ddg search2 now sel store
        = (evs, s2, none)) :
    chat_turn encode insOk search1 ddg search2 comp now sel p msgs store
      = { messages := msgs ++ [user_message p], store := s2, events := evs,
          failed := true } := by
  simp [chat_turn, h]

theorem chat_turn_retrieve_ok {encode : String → List Int}
    {insOk : NewsRow → Bool} {search1 : Except Unit (List NewsMatch)}
    {ddg : Except Unit (List Article)} {search2 : Except Unit (List NewsMatch)}
    {comp : CompStream} {now : Nat} {sel p : String} {msgs : List Msg}
    {store s2 : Store} {evs : List Ev} {ms : List NewsMatch}
    (h : retrieve_phase encode insOk search1 ddg search2 now sel store
        = (evs, s2, some ms)) :
    chat_turn encode insOk search1 ddg search2 comp now sel p msgs store
      = synth_phase comp ms (msgs ++ [user_message p]) s2 evs := by
  simp [chat_turn, h]

theorem synth_phase_comp_fails {comp : CompStream} {ms : List NewsMatch}
    {msgs1 : List Msg} {s2 : Store} {evs : List Ev} (h : comp.fails = true) :
    synth_phase comp ms msgs1 s2 evs
      = { messages := msgs1, store := s2,
          events := evs ++ [Ev.completionCall (system_prompt (context_text ms))],
          failed := true } := by
  simp [synth_phase, h]

theorem synth_phase_comp_ok {comp : CompStream} {ms : List NewsMatch}
    {msgs1 : List Msg} {s2 : Store} {evs : List Ev} (h : comp.fails = false) :
    synth_phase comp ms msgs1 s2 evs
      = { messages := msgs1 ++ [assistant_message (String.join comp.chunks)],
          store := s2,
          events := evs ++ [Ev.completionCall (system_prompt (context_text ms))],
          failed := false } := by
  simp [synth_phase, h]

/-- C5: Context construction is a pure function of the retrieved match list:
for every match list the produced context string is exactly the in-order
concatenation of each match's headline-and-body fragment, blank-line
separated — so no match is dropped or reordered — and the spec's two-match
example produces exactly the expected string. -/
theorem c5_context_construction_pure :
    (∀ ms : List NewsMatch, context_text ms = join_frags ms)
    ∧ context_text [⟨"H1", "C1", ""⟩, ⟨"H2", "C2", ""⟩]
        = "Headline: H1\nBody: C1\n\nHeadline: H2\nBody: C2" :=
  ⟨context_text_eq_join_frags, by decide⟩

/-- C6: Ingestion is append-only with no deduplication: inserting the same
article twice yields two identical rows; every ingestion run only appends
rows carrying the run's own ticker, so rows of any other ticker are never
mutated or removed — in both the batch loop and the backfill loop (the latter
even when an insert fails part-way). -/
theorem c6_ingestion_append_only_no_dedup (encode : String → List Int)
    (insOk : NewsRow → Bool) (now : Nat) (tk : String) (a : Article)
    (articles : List Article) (store : Store) :
    (fetch_and_store_loop encode (fun _ => true) now tk [a, a] store).1
        = store ++ [etl_row encode now tk a, etl_row encode now tk a]
    ∧ (∃ tail, (fetch_and_store_loop encode insOk now tk articles store).1
        = store ++ tail ∧ ∀ r ∈ tail, r.ticker = tk)
    ∧ (∃ tail, storeOf (research_insert_loop encode insOk now tk articles store)
        = store ++ tail ∧ ∀ r ∈ tail, r.ticker = py_upper tk) := by
  refine ⟨?_, ?_, ?_⟩
  · simp [fetch_and_store_loop_eq]
  · refine ⟨(articles.filter
        (fun x => insOk (etl_row encode now tk x))).map (etl_row encode now tk),
      ?_, ?_⟩
    · simp [fetch_and_store_loop_eq]
    · intro r hr
      obtain ⟨a2, _, rfl⟩ := List.mem_map.mp hr
      rfl
  · obtain ⟨tail, heq, hall⟩ :=
      research_insert_loop_spec encode insOk now tk articles store
    exact ⟨tail, heq, fun r hr => (hall r hr).1⟩

/-- Witness for C6 at a concrete input: ingesting the same article twice into
an empty store yields exactly two identical rows. -/
theorem c6_ingestion_append_only_no_dedup_witness :
    (fetch_and_store_loop (fun _ => [0]) (fun _ => true) 0 "TSLA"
        [⟨"t", "b"⟩, ⟨"t", "b"⟩] []).1
      = [etl_row (fun _ => [0]) 0 "TSLA" ⟨"t", "b"⟩,
         etl_row (fun _ => [0]) 0 "TSLA" ⟨"t", "b"⟩] :=
  (c6_ingestion_append_only_no_dedup (fun _ => [0]) (fun _ => true) 0 "TSLA"
    ⟨"t", "b"⟩ [] []).1

/-- C7: If any required configuration value (store URL, store key, or
completion-provider key) is missing, both entry points abort at startup with
their diagnostic, and the rest of the script — which only runs on a
successful startup — never executes. -/
theorem c7_missing_config_aborts {α β : Type} (s : Secrets)
    (url key : Option String) (rest : String × String × String → α)
    (rest2 : String × String → β)
    (happ : s.supabase_url = none ∨ s.supabase_key = none ∨ s.groq_api_key = none)
    (hetl : url = none ∨ key = none) :
    app_run s rest
      = Except.error "Secrets missing! Please update Streamlit Secrets."
    ∧ etl_run url key rest2
      = Except.error "Supabase URL or Key is missing. Check your environment variables." := by
  constructor
  · obtain ⟨u, k, g⟩ := s
    simp only at happ
    rcases happ with h | h | h
    · subst h; cases k <;> cases g <;> simp [app_run, app_startup]
    · subst h; cases u <;> cases g <;> simp [app_run, app_startup]
    · subst h; cases u <;> cases k <;> simp [app_run, app_startup]
  · rcases hetl with h | h
    · subst h; cases key <;> simp [etl_run, etl_startup]
    · subst h; cases url <;> simp [etl_run, etl_startup]

/-- Witness for C7 at a concrete input: a missing store URL (app) and a
missing store key (etl) both abort with the diagnostic. -/
theorem c7_missing_config_aborts_witness :
    app_run ⟨none, some "k", some "g"⟩ (fun _ => 0)
      = Except.error "Secrets missing! Please update Streamlit Secrets."
    ∧ etl_run (some "u") none (fun _ => 0)
      = Except.error "Supabase URL or Key is missing. Check your environment variables." :=
  c7_missing_config_aborts ⟨none, some "k", some "g"⟩ (some "u") none
    (fun _ => 0) (fun _ => 0) (Or.inl rfl) (Or.inr rfl)

/-- C8: A quote-provider fetch failure during a widget refresh renders the
explicit warning text in the price column (and the placeholder in the chart
column when the history fetch fails too); the widget function always returns
a rendered state for a non-empty ticker and has no raising outcome. -/
theorem c8_quote_failure_unavailable (ticker : String)
    (hist : Except Unit (List Int)) (ht : ticker.isEmpty = false) :
    show_market_data ticker (Except.error ()) hist
      = some (PriceView.warning "Market data unavailable", show_chart hist)
    ∧ show_price_metric ticker (Except.error ())
      = PriceView.warning "Market data unavailable"
    ∧ show_chart (Except.error ()) = ChartView.unavailable "Chart unavailable" := by
  refine ⟨?_, ?_, ?_⟩
  · simp [show_market_data, ht, show_price_metric]
  · rfl
  · rfl

/-- Witness for C8 at a concrete input: failed quote and history fetches for
ticker NVDA render the two unavailable states. -/
theorem c8_quote_failure_unavailable_witness :
    show_market_data "NVDA" (Except.error ()) (Except.error ())
      = some (PriceView.warning "Market data unavailable",
              ChartView.unavailable "Chart unavailable") :=
  (c8_quote_failure_unavailable "NVDA" (Except.error ()) rfl).1

/-- C9: Every row written to the news table — by the batch ingestion loop and
by the backfill loop — has `published_at` equal to the wall clock `now` at
insertion time, for every article regardless of its content. -/
theorem c9_published_at_is_insert_time (encode : String → List Int)
    (insOk : NewsRow → Bool) (now : Nat) (tk : String) (a : Article)
    (articles : List Article) (store : Store) :
    (etl_row encode now tk a).published_at = now
    ∧ (research_row encode now tk a).published_at = now
    ∧ (∀ r ∈ (fetch_and_store_loop encode insOk now tk articles store).1,
        r ∈ store ∨ r.published_at = now)
    ∧ (∀ r ∈ storeOf (research_insert_loop encode insOk now tk articles store),
        r ∈ store ∨ r.published_at = now) := by
  refine ⟨rfl, rfl, ?_, ?_⟩
  · intro r hr
    rw [fetch_and_store_loop_eq] at hr
    rcases List.mem_append.mp hr with h | h
    · exact Or.inl h
    · obtain ⟨a2, _, rfl⟩ := List.mem_map.mp h
      exact Or.inr rfl
  · intro r hr
    obtain ⟨tail, heq, hall⟩ :=
      research_insert_loop_spec encode insOk now tk articles store
    rw [heq] at hr
    rcases List.mem_append.mp hr with h | h
    · exact Or.inl h
    · exact Or.inr (hall r h).2

/-- Witness for C9 at a concrete input: both row builders stamp the clock
value 7. -/
theorem c9_published_at_is_insert_time_witness :
    (etl_row (fun _ => [0]) 7 "NVDA" ⟨"t", "b"⟩).published_at = 7
    ∧ (research_row (fun _ => [0]) 7 "nvda" ⟨"t", "b"⟩).published_at = 7 :=
  ⟨(c9_published_at_is_insert_time (fun _ => [0]) (fun _ => true) 7 "NVDA"
      ⟨"t", "b"⟩ [] []).1,
   (c9_published_at_is_insert_time (fun _ => [0]) (fun _ => true) 7 "nvda"
      ⟨"t", "b"⟩ [] []).2.1⟩

/-- C1 counterexample: on the turn where the first search returns zero
matches and the backfill's store insert raises (`insOk` always false, one
web-search result), the backfill is invoked once but NO retry search follows
— the turn dies with the exception — refuting "followed by exactly one retry
search, regardless of the retry's outcome". -/
theorem c1_counterexample :
    backfillCount (chat_turn (fun _ => [0]) (fun _ => false) (Except.ok [])
        (Except.ok [⟨"T1", "B1"⟩]) (Except.ok []) ⟨[], false⟩ 0 "NVDA" "q"
        [] []).events = 1
    ∧ searchCount (chat_turn (fun _ => [0]) (fun _ => false) (Except.ok [])
        (Except.ok [⟨"T1", "B1"⟩]) (Except.ok []) ⟨[], false⟩ 0 "NVDA" "q"
        [] []).events = 1 := by
  decide

/-- C1 (amended): backfill is invoked exactly once when and only when the
first search returns zero matches, never when it returns matches or raises;
when the backfill completes without raising, exactly one retry search follows
regardless of the retry's outcome; when the backfill itself raises on a store
insert, the turn aborts before any retry search. -/
theorem c1_amended_backfill_protocol (encode : String → List Int)
    (insOk : NewsRow → Bool) (search1 : Except Unit (List NewsMatch))
    (ddg : Except Unit (List Article)) (search2 : Except Unit (List NewsMatch))
    (comp : CompStream) (now : Nat) (sel p : String) (msgs : List Msg)
    (store : Store) :
    (search1 = Except.ok [] →
      backfillCount (chat_turn encode insOk search1 ddg search2 comp now sel p
        msgs store).events = 1)
    ∧ (∀ m ms1, search1 = Except.ok (m :: ms1) →
      backfillCount (chat_turn encode insOk search1 ddg search2 comp now sel p
        msgs store).events = 0
      ∧ searchCount (chat_turn encode insOk search1 ddg search2 comp now sel p
        msgs store).events = 1)
    ∧ (∀ e, search1 = Except.error e →
      backfillCount (chat_turn encode insOk search1 ddg search2 comp now sel p
        msgs store).events = 0)
    ∧ (∀ s2 ms2, search1 = Except.ok [] →
      perform_live_research encode insOk ddg now (target_ticker sel) store
        = Except.ok s2 →
      search2 = Except.ok ms2 →
      backfillCount (chat_turn encode insOk search1 ddg search2 comp now sel p
        msgs store).events = 1
      ∧ searchCount (chat_turn encode insOk search1 ddg search2 comp now sel p
        msgs store).events = 2)
    ∧ (∀ s2, search1 = Except.ok [] →
      perform_live_research encode insOk ddg now (target_ticker sel) store
        = Except.error s2 →
      searchCount (chat_turn encode insOk search1 ddg search2 comp now sel p
        msgs store).events = 1
      ∧ (chat_turn encode insOk search1 ddg search2 comp now sel p msgs
        store).failed = true) := by
  refine ⟨?_, ?_, ?_, ?_, ?_⟩
  · intro h1
    subst h1
    cases hp : perform_live_research encode insOk ddg now (target_ticker sel) store with
    | error s2 =>
      rw [chat_turn_retrieve_failed (retrieve_phase_backfill_error hp)]
      simp [backfillCount, isBackfillEv]
    | ok s2 =>
      cases search2 with
      | error e =>
        rw [chat_turn_retrieve_failed (retrieve_phase_retry_error hp)]
        simp [backfillCount, isBackfillEv]
      | ok ms2 =>
        rw [chat_turn_retrieve_ok (retrieve_phase_retry_ok hp)]
        cases hcf : comp.fails with
        | true =>
          rw [synth_phase_comp_fails hcf]
          simp [backfillCount, isBackfillEv, List.filter_append]
        | false =>
          rw [synth_phase_comp_ok hcf]
          simp [backfillCount, isBackfillEv, List.filter_append]
  · intro m ms1 h1
    subst h1
    rw [chat_turn_retrieve_ok retrieve_phase_hit]
    cases hcf : comp.fails with
    | true =>
      rw [synth_phase_comp_fails hcf]
      simp [backfillCount, searchCount, isBackfillEv, isSearchEv,
        List.filter_append]
    | false =>
      rw [synth_phase_comp_ok hcf]
      simp [backfillCount, searchCount, isBackfillEv, isSearchEv,
        List.filter_append]
  · intro e h1
    subst h1
    rw [chat_turn_retrieve_failed retrieve_phase_first_error]
    simp [backfillCount]
  · intro s2 ms2 h1 hp h2
    subst h1
    subst h2
    rw [chat_turn_retrieve_ok (retrieve_phase_retry_ok hp)]
    cases hcf : comp.fails with
    | true =>
      rw [synth_phase_comp_fails hcf]
      simp [backfillCount, searchCount, isBackfillEv, isSearchEv,
        List.filter_append]
    | false =>
      rw [synth_phase_comp_ok hcf]
      simp [backfillCount, searchCount, isBackfillEv, isSearchEv,
        List.filter_append]
  · intro s2 h1 hp
    subst h1
    rw [chat_turn_retrieve_failed (retrieve_phase_backfill_error hp)]
    constructor
    · simp [searchCount, isSearchEv, isBackfillEv]
    · rfl

/-- Witness for C1 (amended) at a concrete input: a zero-match first search
with a failing backfill web search (caught, store unchanged) is followed by
exactly one retry search and exactly one backfill. -/
theorem c1_amended_backfill_protocol_witness :
    backfillCount (chat_turn (fun _ => [0]) (fun _ => true) (Except.ok [])
        (Except.error ()) (Except.ok []) ⟨["hi"], false⟩ 0 "NVDA" "q"
        [] []).events = 1
    ∧ searchCount (chat_turn (fun _ => [0]) (fun _ => true) (Except.ok [])
        (Except.error ()) (Except.ok []) ⟨["hi"], false⟩ 0 "NVDA" "q"
        [] []).events = 2 :=
  (c1_amended_backfill_protocol (fun _ => [0]) (fun _ => true) (Except.ok [])
      (Except.error ()) (Except.ok []) ⟨["hi"], false⟩ 0 "NVDA" "q"
      [] []).2.2.2.1 [] [] rfl rfl rfl

set_option maxRecDepth 8000 in
/-- C2 counterexample: the spec's heuristic applied to "Why is PLTR up
today?" would yield PLTR, but the code's chat turn on that very question
(Active Ticker box "NVDA") backfills NVDA and never PLTR: the extracted
ticker does not come from the question. -/
theorem c2_counterexample :
    spec_extract_ticker "Why is PLTR up today?" = some "PLTR"
    ∧ spec_extract_ticker "why is the market down" = none
    ∧ Ev.backfill "NVDA" ∈ (chat_turn (fun _ => [0]) (fun _ => true)
        (Except.ok []) (Except.error ()) (Except.ok []) ⟨["hi"], false⟩ 0
        "NVDA" "Why is PLTR up today?" [] []).events
    ∧ ¬ Ev.backfill "PLTR" ∈ (chat_turn (fun _ => [0]) (fun _ => true)
        (Except.ok []) (Except.error ()) (Except.ok []) ⟨["hi"], false⟩ 0
        "NVDA" "Why is PLTR up today?" [] []).events := by
  decide

/-- C2 (amended): the ticker used for backfill is always the Active Ticker
input upper-cased, for every free-text question — the question is never
scanned for a ticker. -/
theorem c2_amended_ticker_from_selected (encode : String → List Int)
    (insOk : NewsRow → Bool) (search1 : Except Unit (List NewsMatch))
    (ddg : Except Unit (List Article)) (search2 : Except Unit (List NewsMatch))
    (comp : CompStream) (now : Nat) (sel p : String) (msgs : List Msg)
    (store : Store) (t : String)
    (h : Ev.backfill t ∈ (chat_turn encode insOk search1 ddg search2 comp now
        sel p msgs store).events) :
    t = py_upper sel := by
  cases search1 with
  | error e =>
    rw [chat_turn_retrieve_failed retrieve_phase_first_error] at h
    simp at h
  | ok ms1 =>
    cases ms1 with
    | cons m ms =>
      rw [chat_turn_retrieve_ok retrieve_phase_hit] at h
      cases hcf : comp.fails with
      | true =>
        rw [synth_phase_comp_fails hcf] at h
        simp [isBackfillEv] at h
      | false =>
        rw [synth_phase_comp_ok hcf] at h
        simp [isBackfillEv] at h
    | nil =>
      cases hp : perform_live_research encode insOk ddg now (target_ticker sel) store with
      | error s2 =>
        rw [chat_turn_retrieve_failed (retrieve_phase_backfill_error hp)] at h
        simp [target_ticker] at h
        exact h
      | ok s2 =>
        cases search2 with
        | error e =>
          rw [chat_turn_retrieve_failed (retrieve_phase_retry_error hp)] at h
          simp [target_ticker] at h
          exact h
        | ok ms2 =>
          rw [chat_turn_retrieve_ok (retrieve_phase_retry_ok hp)] at h
          cases hcf : comp.fails with
          | true =>
            rw [synth_phase_comp_fails hcf] at h
            simp [target_ticker] at h
            exact h
          | false =>
            rw [synth_phase_comp_ok hcf] at h
            simp [target_ticker] at h
            exact h

set_option maxRecDepth 8000 in
/-- Witness for C2 (amended) at a concrete input: the backfill ticker on a
zero-match turn with Active Ticker "NVDA" is NVDA. -/
theorem c2_amended_ticker_from_selected_witness : "NVDA" = py_upper "NVDA" :=
  c2_amended_ticker_from_selected (fun _ => [0]) (fun _ => true)
    (Except.ok []) (Except.error ()) (Except.ok []) ⟨["hi"], false⟩ 0 "NVDA"
    "Why is PLTR up today?" [] [] "NVDA" (by decide)

/-- C3 counterexample: a store insert failure during backfill (web search
returned one article, every insert raises) propagates out of
`perform_live_research`, and the calling query turn dies with it instead of
degrading to an empty context. -/
theorem c3_counterexample :
    perform_live_research (fun _ => [0]) (fun _ => false)
        (Except.ok [⟨"T1", "B1"⟩]) 0 "NVDA" [] = Except.error []
    ∧ (chat_turn (fun _ => [0]) (fun _ => false) (Except.ok [])
        (Except.ok [⟨"T1", "B1"⟩]) (Except.ok []) ⟨[], false⟩ 0 "NVDA" "q"
        [] []).failed = true :=
  ⟨rfl, by decide⟩

/-- C3 (amended): a web-search failure during backfill is caught at the call
site and degrades to an unchanged store; a store insert failure during batch
ingestion fails only that item (the other items are still processed, in
order); a quote failure degrades to the warning state; but a store insert
failure during backfill propagates and aborts the calling query turn. -/
theorem c3_amended_provider_error_handling (encode : String → List Int)
    (insOk : NewsRow → Bool) (ddg : Except Unit (List Article))
    (search2 : Except Unit (List NewsMatch)) (comp : CompStream) (now : Nat)
    (tk sel p : String) (msgs : List Msg) (store : Store)
    (articles : List Article) (s2 : Store) :
    perform_live_research encode insOk (Except.error ()) now tk store
      = Except.ok store
    ∧ fetch_and_store_loop encode insOk now tk articles store
      = (store ++ (articles.filter
            (fun a => insOk (etl_row encode now tk a))).map (etl_row encode now tk),
         (articles.filter (fun a => insOk (etl_row encode now tk a))).length)
    ∧ show_price_metric tk (Except.error ())
      = PriceView.warning "Market data unavailable"
    ∧ (perform_live_research encode insOk ddg now (target_ticker sel) store
        = Except.error s2 →
      (chat_turn encode insOk (Except.ok []) ddg search2 comp now sel p msgs
        store).failed = true) := by
  refine ⟨rfl, fetch_and_store_loop_eq encode insOk now tk articles store, rfl, ?_⟩
  intro hb
  rw [chat_turn_retrieve_failed (retrieve_phase_backfill_error hb)]

/-- Witness for C3 (amended) at a concrete input: a turn whose backfill
insert raises ends with `failed = true`. -/
theorem c3_amended_provider_error_handling_witness :
    (chat_turn (fun _ => [0]) (fun _ => false) (Except.ok [])
        (Except.ok [⟨"T1", "B1"⟩]) (Except.ok []) ⟨[], false⟩ 0 "NVDA" "q"
        [] []).failed = true :=
  (c3_amended_provider_error_handling (fun _ => [0]) (fun _ => false)
      (Except.ok [⟨"T1", "B1"⟩]) (Except.ok []) ⟨[], false⟩ 0 "NVDA" "NVDA"
      "q" [] [] [] []).2.2.2 rfl

/-- C4: when the streaming completion provider fails, the turn ends in the
failed state (the exception surfaces) and the session history holds exactly
the prior messages plus the user message — no assistant entry, not even a
partial one, is appended for that turn. -/
theorem c4_completion_failure_history_clean (encode : String → List Int)
    (insOk : NewsRow → Bool) (search1 : Except Unit (List NewsMatch))
    (ddg : Except Unit (List Article)) (search2 : Except Unit (List NewsMatch))
    (comp : CompStream) (now : Nat) (sel p : String) (msgs : List Msg)
    (store : Store) (h : comp.fails = true) :
    (chat_turn encode insOk search1 ddg search2 comp now sel p msgs
      store).failed = true
    ∧ (chat_turn encode insOk search1 ddg search2 comp now sel p msgs
      store).messages = msgs ++ [user_message p] := by
  rcases hr : retrieve_phase encode insOk search1 ddg search2 now sel store
    with ⟨evs, s2, mso⟩
  cases mso with
  | none =>
    rw [chat_turn_retrieve_failed hr]
    exact ⟨rfl, rfl⟩
  | some ms =>
    rw [chat_turn_retrieve_ok hr, synth_phase_comp_fails h]
    exact ⟨rfl, rfl⟩

/-- Witness for C4 at a concrete input: one match was retrieved, two chunks
already streamed, then the stream raises — the history holds only the user
message. -/
theorem c4_completion_failure_history_clean_witness :
    (chat_turn (fun _ => [0]) (fun _ => true) (Except.ok [⟨"H1", "C1", ""⟩])
        (Except.error ()) (Except.ok []) ⟨["par", "tial"], true⟩ 0 "NVDA" "q"
        [] []).messages = [user_message "q"] :=
  (c4_completion_failure_history_clean (fun _ => [0]) (fun _ => true)
      (Except.ok [⟨"H1", "C1", ""⟩]) (Except.error ()) (Except.ok [])
      ⟨["par", "tial"], true⟩ 0 "NVDA" "q" [] [] rfl).2

/-- C10: when both the first search and the post-backfill retry return zero
matches and the backfill and completion do not raise, the turn still reaches
the completion call with the empty context interpolated into the system
prompt, and the assistant message is appended — the turn is not
short-circuited by the empty result. -/
theorem c10_empty_retrieval_still_synthesizes (encode : String → List Int)
    (insOk : NewsRow → Bool) (ddg : Except Unit (List Article))
    (comp : CompStream) (now : Nat) (sel p : String) (msgs : List Msg)
    (store s2 : Store)
    (hb : perform_live_research encode insOk ddg now (target_ticker sel) store
        = Except.ok s2)
    (hc : comp.fails = false) :
    chat_turn encode insOk (Except.ok []) ddg (Except.ok []) comp now sel p
        msgs store
      = { messages := msgs ++ [user_message p,
            assistant_message (String.join comp.chunks)],
          store := s2,
          events := [Ev.search 0, Ev.backfill (target_ticker sel), Ev.search 0,
            Ev.completionCall (system_prompt "")],
          failed := false } := by
  rw [chat_turn_retrieve_ok (retrieve_phase_retry_ok hb), synth_phase_comp_ok hc]
  simp [context_text]

/-- Witness for C10 at a concrete input: failing backfill web search (caught),
two zero-match searches, successful stream — the assistant message lands in
history and the completion was called with the empty context. -/
theorem c10_empty_retrieval_still_synthesizes_witness :
    chat_turn (fun _ => [0]) (fun _ => true) (Except.ok []) (Except.error ())
        (Except.ok []) ⟨["no", " data"], false⟩ 0 "NVDA" "q" [] []
      = { messages := [user_message "q", assistant_message "no data"],
          store := [],
          events := [Ev.search 0, Ev.backfill "NVDA", Ev.search 0,
            Ev.completionCall (system_prompt "")],
          failed := false } :=
  c10_empty_retrieval_still_synthesizes (fun _ => [0]) (fun _ => true)
    (Except.error ()) ⟨["no", " data"], false⟩ 0 "NVDA" "q" [] [] [] rfl rfl

end AlphaSignal
